import Mathlib

/-!
Verification of the NHSUKMCP repository against its specification.

The embedding below translates the two Python modules
`src/nhsuk_mcp/azure_search.py` and `src/nhs_orgs_mcp/azure_search.py`
into Lean definitions:

* content-section extraction (`_extract_content_sections` and its inner
  helper `extract_from_part`, nhsuk_mcp/azure_search.py lines 202-276);
* the de-duplication pass over extracted sections (lines 266-276);
* the postcode-resolution response handling of both modules;
* the organisation-search record construction of both modules,
  including address composition and the `top` request parameter;
* the haversine distance `_calculate_distance` (modelled over ℝ).

Machine floats are modelled by ℝ (for the transcendental distance
formula) and by ℚ (for the decidable record-construction facts);
Python strings are Lean `String`s; JSON dictionaries are modelled by
records holding exactly the keys the code reads, with `Option` for
possibly-absent keys.
-/

namespace NhsMcp

/-- A flattened content section.  The Python code stores sections as
dicts with optional `headline`/`text` keys; a missing key behaves as
`""` everywhere the code reads it back (it is only ever read via
`.get(k, '')` or truthiness tests), so both fields are plain strings
with `""` for "absent or empty". -/
structure ContentSection where
  headline : String
  text : String
deriving DecidableEq, Repr

/-- The de-duplication key of nhsuk_mcp/azure_search.py line 271:
`f"{section.get('headline', '')[:50]}_{section.get('text', '')[:50]}"`. -/
def dedupKey (s : ContentSection) : String :=
  s.headline.take 50 ++ "_" ++ s.text.take 50

/-- The de-duplication loop of lines 267-274: walk the list keeping a
set of already-seen keys, keeping only first occurrences. -/
def dedupAux : List ContentSection → List String → List ContentSection
  | [], _ => []
  | s :: rest, seen =>
    if dedupKey s ∈ seen then dedupAux rest seen
    else s :: dedupAux rest (dedupKey s :: seen)

/-- `unique_sections` of lines 266-276: de-duplicate preserving order. -/
def dedupSections (l : List ContentSection) : List ContentSection :=
  dedupAux l []

mutual
/-- A JSON node of a health-topic document, restricted to the keys the
extraction code reads: `headline`, `text`, `description` (strings, `""`
for absent/empty, matching Python truthiness), `mainEntityOfPage` and
`hasPart`.  `extract_from_part` ignores every non-dict input
(line 215-216), so list entries that are not dicts are omitted from the
model; they contribute nothing. -/
inductive Part : Type where
  | mk (headline text description : String) (mainEntityOfPage hasPart : Field)

/-- The value found under `mainEntityOfPage` / `hasPart`: absent, a
single dict (the code recurses into it directly, line 237-238), a list
of dicts (the code iterates, line 234-236), or some other scalar JSON
value (ignored by both isinstance checks). -/
inductive Field : Type where
  | missing : Field
  | node : Part → Field
  | nodes : List Part → Field
  | scalar : Field
end

def Part.headline : Part → String
  | .mk h _ _ _ _ => h

def Part.text : Part → String
  | .mk _ t _ _ _ => t

def Part.description : Part → String
  | .mk _ _ d _ _ => d

def Part.mainEntityOfPage : Part → Field
  | .mk _ _ _ m _ => m

def Part.hasPart : Part → Field
  | .mk _ _ _ _ hp => hp

/-- The section built from a single part, lines 219-225: `headline`
copied when truthy, `text` copied when truthy, else falling back to
`description` when that is truthy. -/
def sectionOf (p : Part) : ContentSection :=
  ⟨p.headline, if p.text = "" then p.description else p.text⟩

/-- Lines 227-229: the section is emitted only when it has meaningful
content (`headline` or `text` truthy). -/
def ownSections (p : Part) : List ContentSection :=
  if (sectionOf p).headline = "" ∧ (sectionOf p).text = "" then []
  else [sectionOf p]

mutual
/-- `extract_from_part` (lines 213-238): emit this part's own section,
then recurse into its `hasPart` children, depth-first pre-order. -/
def extractFromPart : Part → List ContentSection
  | .mk h t d m hp =>
    ownSections (.mk h t d m hp) ++ extractChildren hp

/-- Lines 231-238: handle the `hasPart` value, list vs single dict. -/
def extractChildren : Field → List ContentSection
  | .missing => []
  | .scalar => []
  | .node p => extractFromPart p
  | .nodes ps => extractFromList ps

/-- The `for sub_part in has_parts` loop of lines 235-236. -/
def extractFromList : List Part → List ContentSection
  | [] => []
  | p :: ps => extractFromPart p ++ extractFromList ps
end

/-- Flattening of a field into the list of dict nodes it contributes to
`root_elements` (lines 244-257): a list extends, a single dict appends,
anything else contributes nothing. -/
def fieldNodes : Field → List Part
  | .missing => []
  | .scalar => []
  | .node p => [p]
  | .nodes ps => ps

/-- `root_elements` of lines 240-260: `mainEntityOfPage` nodes, then
top-level `hasPart` nodes, then the document root itself, last. -/
def rootElements (data : Part) : List Part :=
  fieldNodes data.mainEntityOfPage ++ fieldNodes data.hasPart ++ [data]

/-- `_extract_content_sections` (lines 202-276): run `extract_from_part`
over every root element, accumulating into one list, then de-duplicate
preserving first occurrences. -/
def extractContentSections (data : Part) : List ContentSection :=
  dedupSections (extractFromList (rootElements data))

/-- Concrete document for the ordering scenario: node A, reachable only
through `mainEntityOfPage`. -/
def partA : Part := .mk "Alpha" "" "" .missing .missing

/-- A child nested inside node B, to exercise depth-first pre-order. -/
def partBChild : Part := .mk "Beta child" "" "" .missing .missing

/-- Node B, reachable through the top-level `hasPart`; its own
`hasPart` holds a single dict (the non-list shape). -/
def partB : Part := .mk "Beta" "" "" .missing (.node partBChild)

/-- A document root with `mainEntityOfPage = [A]`, `hasPart = [B]` and
a headline of its own. -/
def exampleRoot : Part := .mk "Root" "" "" (.nodes [partA]) (.nodes [partB])

/-- Sixty repetitions of the character X, for the dedup-prefix scenario. -/
def xRun : String := ⟨List.replicate 60 'X'⟩

/-- Finite unfoldings of the self-referential Python object
`part = {"headline": "loop"}; part["hasPart"] = part`: `selfNested n`
is that cycle unrolled to depth `n`.  A traversal with a depth bound or
a visited-node bound would emit a bounded number of sections on these
inputs; the code's traversal visits every level. -/
def selfNested : Nat → Part
  | 0 => .mk "loop" "" "" .missing .missing
  | n + 1 => .mk "loop" "" "" .missing (.node (selfNested n))

/-- The `top` field of the search payload in
nhs_orgs_mcp/azure_search.py line 141: `"top": min(max_results, 50)`. -/
def searchTop_orgs (maxResults : Int) : Int := min maxResults 50

/-- The `top` field of the search body in nhsuk_mcp/azure_search.py
line 124: `"top": max_results` — the caller-supplied value, unclamped. -/
def searchTop_nhsuk (maxResults : Int) : Int := maxResults

/-- Python `str.strip()`: drop leading and trailing whitespace.
Implemented over the character list so that it reduces inside the
kernel (`String.trim` is compiled by well-founded recursion and does
not).  Python strips all Unicode whitespace; `Char.isWhitespace`
covers the ASCII whitespace appearing in the claims. -/
def pyStrip (s : String) : String :=
  ⟨((s.data.dropWhile Char.isWhitespace).reverse.dropWhile Char.isWhitespace).reverse⟩

/-- Python `round(x, 2)` modelled on ℚ: round to two decimal places.
(Python rounds its binary floats half-to-even; `round` here is
half-up — the facts proved below evaluate it only away from exact
halves, where the two rules agree.) -/
def round2 (x : ℚ) : ℚ := (round (x * 100) : ℤ) / 100

/-- The address-components loop of nhs_orgs_mcp/azure_search.py lines
163-168: for each of Address1, Address2, Address3, City, County,
`if val and val.strip(): address_parts.append(val.strip())` — a `None`,
empty, or whitespace-only value contributes nothing. -/
def buildAddressParts : List (Option String) → List String
  | [] => []
  | v :: rest =>
    match v with
    | none => buildAddressParts rest
    | some s =>
      if s ≠ "" ∧ pyStrip s ≠ "" then pyStrip s :: buildAddressParts rest
      else buildAddressParts rest

/-- Line 174: `", ".join(address_parts) if address_parts else None`. -/
def composedAddressLine (fields : List (Option String)) : Option String :=
  let parts := buildAddressParts fields
  if parts.isEmpty then none else some (String.intercalate ", " parts)

/-- Follows the spec's words (§4.3 address-line reconstruction): "join
the non-empty, trimmed fields with ", "".  Declared for comparison with
the code's loop `buildAddressParts`. -/
def specJoinNonEmptyTrimmed (fields : List String) : String :=
  String.intercalate ", " ((fields.map pyStrip).filter (fun s => ¬ s = ""))

/-- A search-result item, restricted to the keys the two search
functions read.  nhs_orgs reads top-level `Latitude`/`Longitude` and
`OrganisationTypeId`; nhsuk reads `OrganisationTypeID` (note the
differing key spelling across the two modules). -/
structure OrgItem where
  ODSCode : Option String
  OrganisationName : Option String
  OrganisationTypeId : Option String
  OrganisationTypeID : Option String
  Address1 : Option String
  Address2 : Option String
  Address3 : Option String
  City : Option String
  County : Option String
  Postcode : Option String
  Latitude : Option ℚ
  Longitude : Option ℚ
deriving DecidableEq, Repr

/-- The Organization record of nhs_orgs_mcp.  The models module of that
package is not part of the snapshot; the fields mirror the keyword
arguments of the constructor call in nhs_orgs_mcp/azure_search.py lines
170-182, which also match the sibling nhsuk_mcp/models.py declaration. -/
structure Organization where
  organisation_code : String
  organisation_name : String
  organisation_type : String
  address_line_1 : Option String
  address_line_2 : Option String
  town : Option String
  county : Option String
  postcode : Option String
  latitude : Option ℚ
  longitude : Option ℚ
  distance_miles : Option ℚ
deriving DecidableEq, Repr

/-- Per-item record construction of nhs_orgs_mcp/azure_search.py lines
154-182.  The computed haversine distance is passed in as `d` (the code
computes it via `_calculate_distance` on the lines immediately above);
the stored field is `round(distance, 2)` (line 181).  `item_lat if
item_lat else None` is Python float truthiness: zero becomes `None`. -/
def mkOrganization (d : ℚ) (item : OrgItem) : Organization :=
  let itemLat := item.Latitude.getD 0
  let itemLon := item.Longitude.getD 0
  { organisation_code := item.ODSCode.getD ""
    organisation_name := item.OrganisationName.getD ""
    organisation_type := item.OrganisationTypeId.getD ""
    address_line_1 := composedAddressLine
      [item.Address1, item.Address2, item.Address3, item.City, item.County]
    address_line_2 := none
    town := item.City
    county := item.County
    postcode := item.Postcode
    latitude := if itemLat ≠ 0 then some itemLat else none
    longitude := if itemLon ≠ 0 then some itemLon else none
    distance_miles := some (round2 d) }

/-- The Organisation record as constructed by nhsuk_mcp: the fields set
by the constructor call in nhsuk_mcp/azure_search.py lines 168-175. -/
structure OrganisationN where
  organisation_name : Option String
  organisation_type : Option String
  organisation_code : Option String
  address_line_1 : String
  postcode : Option String
  distance_miles : ℚ
deriving DecidableEq, Repr

/-- Per-item record construction of nhsuk_mcp/azure_search.py lines
157-176: the computed distance is stored unrounded (line 174). -/
def mkOrganisationNhsuk (d : ℚ) (item : OrgItem) : OrganisationN :=
  { organisation_name := item.OrganisationName
    organisation_type := item.OrganisationTypeID
    organisation_code := item.ODSCode
    address_line_1 := item.Address1.getD ""
    postcode := item.Postcode
    distance_miles := d }

/-- A concrete search-result item whose address components are exactly
the five fields of the spec's composition scenario. -/
def sampleItem : OrgItem :=
  { ODSCode := some "F123"
    OrganisationName := some "Demo Pharmacy"
    OrganisationTypeId := some "PHA"
    OrganisationTypeID := some "PHA"
    Address1 := some "10 High St"
    Address2 := some ""
    Address3 := some "Flatville"
    City := some ""
    County := some "Surrey"
    Postcode := some "AB1 2CD"
    Latitude := some 51
    Longitude := some 0 }

/-- Python `str.upper()` over the character list (ASCII-correct, which
covers postcodes). -/
def pyUpper (s : String) : String := ⟨s.data.map Char.toUpper⟩

/-- A postcode/place record as it appears in the remote response, with
both key casings the code probes (`Latitude` vs `latitude`), `none` for
an absent key. -/
structure GeoRec where
  Latitude : Option ℚ
  latitude : Option ℚ
  Longitude : Option ℚ
  longitude : Option ℚ
deriving DecidableEq, Repr

/-- A record carrying no coordinate keys. -/
def emptyGeoRec : GeoRec := ⟨none, none, none, none⟩

/-- The decoded JSON body of a postcode lookup, as far as the handlers
inspect it: a dict with an optional `value` key holding a list of
records plus the dict's own top-level coordinate keys, or a non-dict
value. -/
inductive PcData where
  | dict (value : Option (List GeoRec)) (self : GeoRec)
  | nonDict
deriving DecidableEq, Repr

/-- Outcome of the HTTP fetch as the `try` block observes it: a decoded
JSON body; an HTTP error status raised by `raise_for_status`
(httpx.HTTPStatusError); or any other failure — connection errors,
timeouts, undecodable bodies (httpx.HTTPError and other exceptions). -/
inductive FetchOutcome where
  | success (data : PcData)
  | statusError (code : Nat)
  | transportFailure
deriving DecidableEq, Repr

/-- An error propagated to the caller (a re-raised exception). -/
inductive TransportError where
  | httpStatus (code : Nat)
  | network
deriving DecidableEq, Repr

deriving instance DecidableEq for Except

/-- The PostcodeResult record of nhs_orgs_mcp (fields per the sibling
nhsuk_mcp/models.py declaration, matching the constructor keywords at
nhs_orgs_mcp/azure_search.py lines 78-89). -/
structure PostcodeResultO where
  latitude : ℚ
  longitude : ℚ
  postcode : String
deriving DecidableEq, Repr

/-- Python `a or b` for an optional coordinate with a defaulted
fallback, as in `first_result.get("Latitude") or
first_result.get("latitude", 0.0)`: a present but zero value is falsy
and falls through to the fallback. -/
def coordOr (primary fallback : Option ℚ) : ℚ :=
  match primary with
  | some v => if v ≠ 0 then v else fallback.getD 0
  | none => fallback.getD 0

/-- Success-path body handling of nhs_orgs `get_postcode_coordinates`
(nhs_orgs_mcp/azure_search.py lines 71-92): a truthy `value` list
yields its first record; otherwise a dict bearing a Latitude/latitude
key yields the dict itself; otherwise None (postcode not found).  The
stored postcode is the trimmed upper-cased original (line 81/88). -/
def handlePcData_orgs (postcode : String) : PcData → Option PostcodeResultO
  | .nonDict => none
  | .dict value self =>
    match value with
    | some (r :: _) =>
      some ⟨coordOr r.Latitude r.latitude, coordOr r.Longitude r.longitude,
            pyUpper (pyStrip postcode)⟩
    | _ =>
      if self.Latitude.isSome ∨ self.latitude.isSome then
        some ⟨coordOr self.Latitude self.latitude,
              coordOr self.Longitude self.longitude, pyUpper (pyStrip postcode)⟩
      else none

/-- nhs_orgs `get_postcode_coordinates` (lines 36-102) over a fetch
outcome: HTTP 404 yields None (not found); any other HTTP status error
re-raises (lines 94-99), as does any other transport failure
(lines 100-102). -/
def getPostcodeCoordinatesOrgs (postcode : String) (r : FetchOutcome) :
    Except TransportError (Option PostcodeResultO) :=
  match r with
  | .success d => .ok (handlePcData_orgs postcode d)
  | .statusError c => if c = 404 then .ok none else .error (.httpStatus c)
  | .transportFailure => .error .network

/-- Success-path result selection of nhsuk `get_postcode_coordinates`
(nhsuk_mcp/azure_search.py lines 63-85): a non-empty `value` list
yields its first record; otherwise a dict with both `Latitude` and
`Longitude` keys yields itself; otherwise None. -/
def selectPcResult_nhsuk : PcData → Option GeoRec
  | .nonDict => none
  | .dict value self =>
    match value with
    | some (r :: _) => some r
    | _ =>
      if self.Latitude.isSome ∧ self.Longitude.isSome then some self else none

/-- nhsuk `get_postcode_coordinates` (lines 32-92) over a fetch
outcome: `except httpx.HTTPStatusError` (lines 87-89) and
`except Exception` (lines 90-92) both return None, so no failure ever
propagates to the caller. -/
def getPostcodeCoordinatesNhsuk (r : FetchOutcome) : Option GeoRec :=
  match r with
  | .success d => selectPcResult_nhsuk d
  | .statusError _ => none
  | .transportFailure => none

/-- Python `math.radians`: degrees to radians. -/
noncomputable def radians (deg : ℝ) : ℝ := deg * (Real.pi / 180)

/-- Python `math.atan2(y, x)`, the standard two-argument arctangent
(with `atan2 0 0 = 0`, as in CPython). -/
noncomputable def atan2 (y x : ℝ) : ℝ :=
  if 0 < x then Real.arctan (y / x)
  else if x < 0 then
    (if 0 ≤ y then Real.arctan (y / x) + Real.pi
     else Real.arctan (y / x) - Real.pi)
  else
    (if 0 < y then Real.pi / 2 else if y < 0 then -(Real.pi / 2) else 0)

/-- The intermediate `a` of `_calculate_distance`
(nhsuk_mcp/azure_search.py line 197, nhs_orgs_mcp/azure_search.py line
203): `sin(dlat/2)**2 + cos(lat1)*cos(lat2)*sin(dlon/2)**2` with all
angles converted to radians.  (nhsuk converts each coordinate then
subtracts; nhs_orgs subtracts then converts — identical on ℝ since
`radians` is linear.) -/
noncomputable def haversineTerm (lat1 lon1 lat2 lon2 : ℝ) : ℝ :=
  Real.sin ((radians lat2 - radians lat1) / 2) ^ 2 +
    Real.cos (radians lat1) * Real.cos (radians lat2) *
      Real.sin ((radians lon2 - radians lon1) / 2) ^ 2

/-- `_calculate_distance` (nhsuk_mcp/azure_search.py lines 187-200,
identically nhs_orgs_mcp/azure_search.py lines 191-206): Earth radius
R = 3959 miles, `c = 2 * atan2(sqrt(a), sqrt(1 - a))`, distance `R*c`.
There is no clamping of `a` before the square roots. -/
noncomputable def calculateDistance (lat1 lon1 lat2 lon2 : ℝ) : ℝ :=
  3959 * (2 * atan2 (Real.sqrt (haversineTerm lat1 lon1 lat2 lon2))
      (Real.sqrt (1 - haversineTerm lat1 lon1 lat2 lon2)))

theorem extractFromList_append (l1 l2 : List Part) :
    extractFromList (l1 ++ l2) = extractFromList l1 ++ extractFromList l2 := by
  induction l1 with
  | nil => rfl
  | cons p ps ih => simp [extractFromList, ih]

theorem dedupAux_sublist (l : List ContentSection) :
    ∀ seen : List String, (dedupAux l seen).Sublist l := by
  induction l with
  | nil => intro seen; exact List.Sublist.refl []
  | cons s rest ih =>
    intro seen
    by_cases h : dedupKey s ∈ seen
    · simp only [dedupAux, if_pos h]
      exact (ih seen).cons s
    · simp only [dedupAux, if_neg h]
      exact (ih (dedupKey s :: seen)).cons₂ s

set_option maxRecDepth 8000 in
/-- Claim C1: the flattening visits entry points in the order
`mainEntityOfPage` nodes, then top-level `hasPart` nodes, then the root
itself last; within an entry point, traversal is depth-first pre-order
(a part's own section precedes its children's); on the concrete root
with main content `[A]`, has-part `[B]` and a root headline, the output
is the A section, then the B-derived sections, then the root section
last. -/
theorem c1_flatten_entry_order :
    (∀ d : Part, extractContentSections d =
       dedupSections (extractFromList (fieldNodes d.mainEntityOfPage)
         ++ extractFromList (fieldNodes d.hasPart) ++ extractFromPart d))
    ∧ (∀ p : Part, extractFromPart p = ownSections p ++ extractChildren p.hasPart)
    ∧ extractContentSections exampleRoot =
       [⟨"Alpha", ""⟩, ⟨"Beta", ""⟩, ⟨"Beta child", ""⟩, ⟨"Root", ""⟩] := by
  refine ⟨?_, ?_, ?_⟩
  · intro d
    show dedupSections (extractFromList
      (fieldNodes d.mainEntityOfPage ++ fieldNodes d.hasPart ++ [d])) = _
    rw [extractFromList_append, extractFromList_append]
    simp [extractFromList]
  · intro p
    cases p
    rfl
  · decide

set_option maxRecDepth 8000 in
/-- Claim C2 counterexample: the code's duplicate test is key equality
for `headline[:50] ++ "_" ++ text[:50]`, which is not equivalent to
"headline prefixes match and text prefixes match": the pair
`⟨"B_", ""⟩` / `⟨"B", "_"⟩` matches on neither prefix, yet the second
section is dropped as a duplicate, so "exactly when" fails. -/
theorem c2_dedup_exactly_counterexample :
    dedupSections [⟨"B_", ""⟩, ⟨"B", "_"⟩] = [⟨"B_", ""⟩]
    ∧ ¬ (("B" : String).take 50 = ("B_" : String).take 50
          ∧ ("_" : String).take 50 = ("" : String).take 50) := by
  decide

set_option maxRecDepth 8000 in
/-- Claim C2 (amended): de-duplication preserves first-occurrence order
(the output is a sublist of the input); matching both 50-character
prefixes is sufficient for two sections to count as duplicates (though
not necessary, see the counterexample); in particular the two sections
with headlines X×60+"A" and X×60+"B" and equal texts agree on the first
50 headline characters and the second is dropped. -/
theorem c2_dedup_amended :
    (∀ s1 s2 : ContentSection, s1.headline.take 50 = s2.headline.take 50 →
        s1.text.take 50 = s2.text.take 50 → dedupKey s1 = dedupKey s2)
    ∧ (∀ l : List ContentSection, (dedupSections l).Sublist l)
    ∧ (xRun ++ "A").take 50 = (xRun ++ "B").take 50
    ∧ dedupSections [⟨xRun ++ "A", "body"⟩, ⟨xRun ++ "B", "body"⟩]
        = [⟨xRun ++ "A", "body"⟩] := by
  refine ⟨?_, fun l => dedupAux_sublist l [], ?_, ?_⟩
  · intro s1 s2 h1 h2
    unfold dedupKey
    rw [h1, h2]
  · decide
  · decide

set_option maxRecDepth 8000 in
/-- Witness for the amended C2 at concrete inputs. -/
theorem c2_dedup_amended_witness :
    dedupKey ⟨"same head", "same text"⟩ = dedupKey ⟨"same head", "same text"⟩
    ∧ (dedupSections [⟨"a", "b"⟩]).Sublist [⟨"a", "b"⟩] :=
  ⟨c2_dedup_amended.1 ⟨"same head", "same text"⟩ ⟨"same head", "same text"⟩ rfl rfl,
   c2_dedup_amended.2.1 [⟨"a", "b"⟩]⟩

/-- Claim C7: the traversal has no depth bound and no visited-node
bound — on the depth-`n` unrolling of the self-referential document it
emits `n + 1` sections, one per level, for every `n`.  A traversal with
any cycle guard would emit a bounded number of sections on this family;
on the actual cyclic Python object the recursion therefore never
returns. -/
theorem c7_no_cycle_guard :
    ∀ n : Nat, (extractFromPart (selfNested n)).length = n + 1 := by
  intro n
  induction n with
  | zero => rfl
  | succ k ih =>
    show (extractFromPart (.mk "loop" "" "" .missing (.node (selfNested k)))).length = k + 2
    simp [extractFromPart, extractChildren, ownSections, sectionOf,
          Part.headline, Part.text, Part.description, ih]

set_option maxRecDepth 8000 in
/-- Claim C10: the dedup key concatenates the headline prefix, a
literal underscore and the text prefix, so `⟨"A_", ""⟩` and
`⟨"A", "_"⟩` — differing in both headline prefix and text prefix — get
the same key and the later one is dropped. -/
theorem c10_dedup_key_conflation :
    dedupKey ⟨"A_", ""⟩ = dedupKey ⟨"A", "_"⟩
    ∧ ¬ ("A" : String).take 50 = ("A_" : String).take 50
    ∧ ¬ ("_" : String).take 50 = ("" : String).take 50
    ∧ dedupSections [⟨"A_", ""⟩, ⟨"A", "_"⟩] = [⟨"A_", ""⟩] := by
  decide

/-- Claim C3 counterexample: neither search clamps into [1,50].  With
limit 0 the nhs_orgs search requests `min(0, 50) = 0` results, below
the claimed lower bound 1; with limit 1000 the nhsuk search requests
1000 results, above the claimed upper bound 50. -/
theorem c3_clamp_counterexample :
    ¬ ((1 ≤ searchTop_orgs 0 ∧ searchTop_orgs 0 ≤ 50)
        ∧ (1 ≤ searchTop_nhsuk 1000 ∧ searchTop_nhsuk 1000 ≤ 50)) := by
  decide

/-- Claim C3 (amended): the nhs_orgs search caps the requested result
count at 50 (`min(max_results, 50)`), so limit 1000 requests 50; it
applies no lower bound, so limit 0 requests 0; the nhsuk search passes
the caller's limit through unchanged. -/
theorem c3_clamp_amended :
    (∀ n : Int, searchTop_orgs n ≤ 50)
    ∧ searchTop_orgs 1000 = 50
    ∧ searchTop_orgs 0 = 0
    ∧ (∀ n : Int, searchTop_nhsuk n = n) := by
  refine ⟨fun n => min_le_right n 50, by decide, by decide, fun n => rfl⟩

theorem buildAddressParts_eq_filter (fields : List String) :
    buildAddressParts (fields.map some)
      = (fields.map pyStrip).filter (fun s => ¬ s = "") := by
  induction fields with
  | nil => rfl
  | cons f fs ih =>
    by_cases h : pyStrip f = ""
    · simp [buildAddressParts, h, ih]
    · have hf : ¬ f = "" := by
        intro he
        rw [he] at h
        exact h (by decide)
      simp [buildAddressParts, h, hf, ih]

/-- Claim C8: the composed address line is the join of the non-empty
trimmed fields with ", " (None when every field is absent or blank),
and the five fields "10 High St", "", "Flatville", "", "Surrey" in a
search-result item compose to "10 High St, Flatville, Surrey" in the
produced record. -/
theorem c8_address_composition :
    (∀ fields : List String,
       composedAddressLine (fields.map some) =
         if ((fields.map pyStrip).filter (fun s => ¬ s = "")).isEmpty
         then none else some (specJoinNonEmptyTrimmed fields))
    ∧ (∀ d : ℚ, (mkOrganization d sampleItem).address_line_1
        = some "10 High St, Flatville, Surrey") := by
  constructor
  · intro fields
    show (if (buildAddressParts (fields.map some)).isEmpty then none
          else some (String.intercalate ", " (buildAddressParts (fields.map some)))) = _
    rw [buildAddressParts_eq_filter]
    rfl
  · intro d
    rfl

/-- Claim C9 counterexample: the nhs_orgs search stores the distance
already rounded inside the returned record — with computed distance
0.123 miles the record holds 0.12, not the full-precision value. -/
theorem c9_rounding_counterexample :
    (mkOrganization (123/1000) sampleItem).distance_miles
      ≠ some (123/1000 : ℚ) := by
  have h1 : (mkOrganization (123/1000) sampleItem).distance_miles
      = some (round2 (123/1000)) := rfl
  have h2 : round2 (123/1000 : ℚ) = 12/100 := by
    simp only [round2]
    norm_num [round_eq]
  rw [h1, h2]
  intro h
  have := Option.some.inj h
  norm_num at this

/-- Claim C9 (amended): the nhs_orgs search populates distance_miles
with `round(distance, 2)` inside the record (the stored value equals
the computed one exactly when the latter is a whole number of
hundredths); the nhsuk search stores the distance at full precision. -/
theorem c9_rounding_amended :
    (∀ d : ℚ, ∀ item : OrgItem,
       (mkOrganization d item).distance_miles = some (round2 d))
    ∧ (∀ d : ℚ, round2 d = d ↔ ∃ k : ℤ, d * 100 = (k : ℚ))
    ∧ (∀ d : ℚ, ∀ item : OrgItem,
       (mkOrganisationNhsuk d item).distance_miles = d) := by
  refine ⟨fun d item => rfl, fun d => ?_, fun d item => rfl⟩
  constructor
  · intro h
    simp only [round2] at h
    rw [div_eq_iff (by norm_num : (100 : ℚ) ≠ 0)] at h
    exact ⟨round (d * 100), h.symm⟩
  · rintro ⟨k, hk⟩
    have hd : d = (k : ℚ) / 100 := by
      rw [eq_div_iff (by norm_num : (100 : ℚ) ≠ 0)]
      exact hk
    simp only [round2, hk, round_intCast]
    exact hd.symm

/-- Claim C4 counterexample: the nhsuk postcode resolver masks every
transport failure into None — a network failure and an HTTP 500 status
are both returned as None, indistinguishable from the NotFound produced
by an empty envelope, instead of propagating as errors. -/
theorem c4_propagation_counterexample :
    getPostcodeCoordinatesNhsuk .transportFailure = none
    ∧ getPostcodeCoordinatesNhsuk (.statusError 500) = none
    ∧ getPostcodeCoordinatesNhsuk (.success (.dict (some []) emptyGeoRec)) = none := by
  decide

/-- Claim C4 (amended): the nhs_orgs implementation behaves as claimed:
remote 404 yields NotFound (None); an empty envelope, a dict without
coordinate keys and a non-dict body yield NotFound; a valid enveloped
record yields its coordinates; every other HTTP status and every other
transport failure propagates as a distinct error.  The nhsuk
implementation instead masks every failure into None. -/
theorem c4_propagation_amended :
    (∀ c : Nat, getPostcodeCoordinatesOrgs "SW1A 1AA" (.statusError c)
        = if c = 404 then .ok none else .error (.httpStatus c))
    ∧ getPostcodeCoordinatesOrgs "SW1A 1AA" .transportFailure = .error .network
    ∧ getPostcodeCoordinatesOrgs "SW1A 1AA"
        (.success (.dict (some []) emptyGeoRec)) = .ok none
    ∧ getPostcodeCoordinatesOrgs "SW1A 1AA"
        (.success (.dict none emptyGeoRec)) = .ok none
    ∧ getPostcodeCoordinatesOrgs "SW1A 1AA" (.success .nonDict) = .ok none
    ∧ getPostcodeCoordinatesOrgs "sw1a 1aa"
        (.success (.dict (some [⟨some (515/10), none, some (-1/10), none⟩]) emptyGeoRec))
        = .ok (some ⟨515/10, -1/10, "SW1A 1AA"⟩)
    ∧ (∀ c : Nat, getPostcodeCoordinatesNhsuk (.statusError c) = none)
    ∧ getPostcodeCoordinatesNhsuk .transportFailure = none := by
  refine ⟨fun c => rfl, rfl, rfl, rfl, rfl, ?_, fun c => rfl, rfl⟩
  simp only [getPostcodeCoordinatesOrgs, handlePcData_orgs, coordOr]
  norm_num
  decide

theorem haversineTerm_self (lat lon : ℝ) : haversineTerm lat lon lat lon = 0 := by
  simp [haversineTerm]

theorem haversineTerm_comm (lat1 lon1 lat2 lon2 : ℝ) :
    haversineTerm lat1 lon1 lat2 lon2 = haversineTerm lat2 lon2 lat1 lon1 := by
  have hsin : ∀ x y : ℝ, Real.sin ((x - y) / 2) ^ 2 = Real.sin ((y - x) / 2) ^ 2 := by
    intro x y
    rw [show y - x = -(x - y) by ring, neg_div, Real.sin_neg, neg_sq]
  unfold haversineTerm
  rw [hsin (radians lat2) (radians lat1), hsin (radians lon2) (radians lon1),
      mul_comm (Real.cos (radians lat1)) (Real.cos (radians lat2))]

/-- Claim C5: the distance of a coordinate to itself is 0, and the
distance is symmetric in its two coordinates (exactly, in the
real-valued model of the floating-point formula). -/
theorem c5_distance_refl_symm :
    (∀ lat lon : ℝ, calculateDistance lat lon lat lon = 0)
    ∧ (∀ lat1 lon1 lat2 lon2 : ℝ,
        calculateDistance lat1 lon1 lat2 lon2 = calculateDistance lat2 lon2 lat1 lon1) := by
  constructor
  · intro lat lon
    unfold calculateDistance
    rw [haversineTerm_self]
    simp [atan2]
  · intro lat1 lon1 lat2 lon2
    unfold calculateDistance
    rw [haversineTerm_comm]

/-- Claim C6: in the real-valued model the haversine intermediate term
always lies in [0, 1] — for every input, not just valid latitudes — so
in exact arithmetic both square-root arguments are nonnegative and the
clamp the spec prescribes would be a no-op.  The code omits the clamp,
and the failure the clamp guards against is purely a floating-point
rounding effect (see RESULTS for a concrete IEEE-754 failing input). -/
theorem c6_haversine_term_in_unit_interval :
    ∀ lat1 lon1 lat2 lon2 : ℝ,
      0 ≤ haversineTerm lat1 lon1 lat2 lon2
      ∧ haversineTerm lat1 lon1 lat2 lon2 ≤ 1 := by
  intro lat1 lon1 lat2 lon2
  have key : ∀ x : ℝ, Real.sin (x / 2) ^ 2 = 1 / 2 - Real.cos x / 2 := by
    intro x
    have h2 : (2 : ℝ) * (x / 2) = x := by ring
    rw [Real.sin_sq_eq_half_sub, h2]
  unfold haversineTerm
  rw [key, key]
  have hprod : Real.cos (radians lat1) * Real.cos (radians lat2)
      = (Real.cos (radians lat1 + radians lat2)
          + Real.cos (radians lat2 - radians lat1)) / 2 := by
    rw [Real.cos_add, Real.cos_sub]
    ring
  rw [hprod]
  have hca : -1 ≤ Real.cos (radians lat2 - radians lat1) := Real.neg_one_le_cos _
  have hcb : Real.cos (radians lat2 - radians lat1) ≤ 1 := Real.cos_le_one _
  have hcc : -1 ≤ Real.cos (radians lat1 + radians lat2) := Real.neg_one_le_cos _
  have hcd : Real.cos (radians lat1 + radians lat2) ≤ 1 := Real.cos_le_one _
  have hce : -1 ≤ Real.cos (radians lon2 - radians lon1) := Real.neg_one_le_cos _
  have hcf : Real.cos (radians lon2 - radians lon1) ≤ 1 := Real.cos_le_one _
  constructor
  · nlinarith [mul_nonneg (by linarith : (0:ℝ) ≤ 1 - Real.cos (radians lat2 - radians lat1))
        (by linarith : (0:ℝ) ≤ 1 + Real.cos (radians lon2 - radians lon1)),
      mul_nonneg (by linarith : (0:ℝ) ≤ 1 + Real.cos (radians lat1 + radians lat2))
        (by linarith : (0:ℝ) ≤ 1 - Real.cos (radians lon2 - radians lon1))]
  · nlinarith [mul_nonneg (by linarith : (0:ℝ) ≤ 1 + Real.cos (radians lat2 - radians lat1))
        (by linarith : (0:ℝ) ≤ 1 + Real.cos (radians lon2 - radians lon1)),
      mul_nonneg (by linarith : (0:ℝ) ≤ 1 - Real.cos (radians lat1 + radians lat2))
        (by linarith : (0:ℝ) ≤ 1 - Real.cos (radians lon2 - radians lon1))]

end NhsMcp
